import Mathlib

/-!
Verification development for the ReClass.NET MCP bridge
(src/ReClassMCP.Server/reclass_mcp_server.py).

The Python program is a protocol bridge: a `ReClassClient` owning one TCP
socket with `connect` / `disconnect` / `send_command`, plus a `call_tool`
dispatcher that maps tool names to remote commands.  We shallowly embed it:

* JSON values are the inductive `Json` (integers only for numbers: the
  bridge never produces float literals; a float in a response is outside
  the model and makes the modelled parser fail).
* `dumps` models Python `json.dumps` with its default separators and
  `ensure_ascii=True`; `loads` models `json.loads` on the same subset.
* A socket is a `Sock`: an oracle describing how the peer and the OS
  behave (whether `sendall` raises, the successive `recv` results,
  whether `close` raises).  `connect` takes an `Option Sock` environment:
  `some sk` means the TCP connect succeeds and yields that socket,
  `none` means it raises (caught by the code).
* Exceptions are explicit: functions return values of `Except` / `Option`
  type; `none` at the `send_command` level models the one behaviour that
  never returns at all (a `recv` that blocks forever).
-/

namespace ReClassMCP

/-- JSON values as decoded by the bridge.  Numbers are restricted to
integers, which covers every value this program serializes. -/
inductive Json where
  | null : Json
  | bool (b : Bool) : Json
  | num (n : Int) : Json
  | str (s : String) : Json
  | arr (elems : List Json) : Json
  | obj (fields : List (String × Json)) : Json

/-- Whether a JSON value is a string. -/
def Json.isStr : Json → Bool
  | .str _ => true
  | _ => false

/-- Lowercase hexadecimal digit, as used by Python in escape sequences. -/
def hexDigitChar (n : Nat) : Char :=
  if n < 10 then Char.ofNat (48 + n) else Char.ofNat (87 + n)

/-- Escape of one character inside a JSON string literal, following
Python json.dumps with its default ensure_ascii=True: quote, backslash
and the short control escapes get a backslash form, every other
character below 0x20 or at 0x7f and above becomes a 4-digit unicode
escape, the rest pass through. -/
def escapeChar (c : Char) : String :=
  if c = Char.ofNat 34 then "\\\""
  else if c = Char.ofNat 92 then "\\\\"
  else if c = Char.ofNat 10 then "\\n"
  else if c = Char.ofNat 13 then "\\r"
  else if c = Char.ofNat 9 then "\\t"
  else if c = Char.ofNat 8 then "\\b"
  else if c = Char.ofNat 12 then "\\f"
  else if c.toNat < 32 ∨ 127 ≤ c.toNat then
    let n := c.toNat
    "\\u" ++ String.mk [hexDigitChar (n / 4096 % 16), hexDigitChar (n / 256 % 16),
      hexDigitChar (n / 16 % 16), hexDigitChar (n % 16)]
  else String.singleton c

/-- Escaped body of a JSON string literal. -/
def escapeString (s : String) : String :=
  String.join (s.toList.map escapeChar)

/-- JSON string literal with its surrounding quotes. -/
def quoteString (s : String) : String :=
  "\"" ++ escapeString s ++ "\""

mutual

/-- Model of Python json.dumps with the default separators
(comma-space between items, colon-space after keys). -/
def dumps : Json → String
  | .null => "null"
  | .bool true => "true"
  | .bool false => "false"
  | .num n => toString n
  | .str s => quoteString s
  | .arr elems => "[" ++ dumpsElems elems ++ "]"
  | .obj fields => "\x7b" ++ dumpsFields fields ++ "\x7d"

/-- Array elements joined by comma-space. -/
def dumpsElems : List Json → String
  | [] => ""
  | [x] => dumps x
  | x :: y :: rest => dumps x ++ ", " ++ dumpsElems (y :: rest)

/-- Object members joined by comma-space, keys quoted, colon-space. -/
def dumpsFields : List (String × Json) → String
  | [] => ""
  | [(k, v)] => quoteString k ++ ": " ++ dumps v
  | (k, v) :: m :: rest => quoteString k ++ ": " ++ dumps v ++ ", " ++ dumpsFields (m :: rest)

end

/-- Whitespace characters skipped between JSON tokens (the four allowed
by the JSON grammar, which is what Python json.loads skips). -/
def jsonWs (c : Char) : Bool :=
  c = ' ' ∨ c = Char.ofNat 9 ∨ c = Char.ofNat 10 ∨ c = Char.ofNat 13

/-- Drop leading JSON whitespace. -/
def skipJsonWs (cs : List Char) : List Char :=
  cs.dropWhile jsonWs

/-- ASCII whitespace stripped by Python str.strip with no argument. -/
def pyStripWs (c : Char) : Bool :=
  c = ' ' ∨ c = Char.ofNat 9 ∨ c = Char.ofNat 10 ∨ c = Char.ofNat 13 ∨
    c = Char.ofNat 11 ∨ c = Char.ofNat 12

/-- Model of Python str.strip(): remove leading and trailing whitespace. -/
def pyStrip (s : String) : String :=
  String.mk (((s.toList.dropWhile pyStripWs).reverse.dropWhile pyStripWs).reverse)

/-- Value of a hexadecimal digit, if the character is one. -/
def hexVal (c : Char) : Option Nat :=
  if 48 ≤ c.toNat ∧ c.toNat ≤ 57 then some (c.toNat - 48)
  else if 97 ≤ c.toNat ∧ c.toNat ≤ 102 then some (c.toNat - 87)
  else if 65 ≤ c.toNat ∧ c.toNat ≤ 70 then some (c.toNat - 55)
  else none

/-- Body of a JSON string literal after the opening quote: plain
characters and the backslash escapes accepted by json.loads; an
unescaped control character, a bad escape or a missing closing quote is
a parse error.  A unicode escape yields the character of its code point
(surrogate-pair recombination is outside the model). -/
def parseStringBody : List Char → String → Option (String × List Char)
  | [], _ => none
  | c :: rest, acc =>
    if c = Char.ofNat 34 then some (acc, rest)
    else if c = Char.ofNat 92 then
      match rest with
      | [] => none
      | e :: rest2 =>
        if e = Char.ofNat 34 then parseStringBody rest2 (acc.push (Char.ofNat 34))
        else if e = Char.ofNat 92 then parseStringBody rest2 (acc.push (Char.ofNat 92))
        else if e = '/' then parseStringBody rest2 (acc.push '/')
        else if e = 'b' then parseStringBody rest2 (acc.push (Char.ofNat 8))
        else if e = 'f' then parseStringBody rest2 (acc.push (Char.ofNat 12))
        else if e = 'n' then parseStringBody rest2 (acc.push (Char.ofNat 10))
        else if e = 'r' then parseStringBody rest2 (acc.push (Char.ofNat 13))
        else if e = 't' then parseStringBody rest2 (acc.push (Char.ofNat 9))
        else if e = 'u' then
          match rest2 with
          | h1 :: h2 :: h3 :: h4 :: rest3 =>
            match hexVal h1, hexVal h2, hexVal h3, hexVal h4 with
            | some a, some b, some c3, some d =>
              parseStringBody rest3 (acc.push (Char.ofNat (((a * 16 + b) * 16 + c3) * 16 + d)))
            | _, _, _, _ => none
          | _ => none
        else none
    else if c.toNat < 32 then none
    else parseStringBody rest (acc.push c)

/-- Integer literal: optional minus, digits, no leading zero; a fraction
or exponent marker makes it a float literal, which is outside this
integer-only model and is treated as unparseable. -/
def parseNum (cs : List Char) : Option (Json × List Char) :=
  let (neg, cs1) : Bool × List Char :=
    match cs with
    | '-' :: r => (true, r)
    | _ => (false, cs)
  let ds := cs1.takeWhile Char.isDigit
  let rest := cs1.dropWhile Char.isDigit
  if ds.isEmpty then none
  else if 1 < ds.length ∧ ds.head? = some '0' then none
  else
    match rest with
    | '.' :: _ => none
    | 'e' :: _ => none
    | 'E' :: _ => none
    | _ =>
      let n : Nat := ds.foldl (fun a c => a * 10 + (c.toNat - 48)) 0
      some (.num (if neg then -(n : Int) else (n : Int)), rest)

/-- Insertion into the association list modelling a Python dict being
built by json.loads: a repeated key overwrites in place, a new key is
appended. -/
def insertMember (acc : List (String × Json)) (k : String) (v : Json) :
    List (String × Json) :=
  if acc.any (fun p => p.1 = k) then
    acc.map (fun p => if p.1 = k then (k, v) else p)
  else acc ++ [(k, v)]

mutual

/-- Recursive-descent JSON value parser modelling json.loads, with fuel
(running out of fuel is a parse failure; the top-level call supplies
more fuel than any input can consume).  Skips leading whitespace, then
dispatches on the first character. -/
def parseVal : Nat → List Char → Option (Json × List Char)
  | 0, _ => none
  | Nat.succ fuel, cs =>
    match skipJsonWs cs with
    | [] => none
    | c :: rest =>
      if c = Char.ofNat 123 then
        match skipJsonWs rest with
        | c2 :: rest2 =>
          if c2 = Char.ofNat 125 then some (.obj [], rest2)
          else parseMembers fuel (c2 :: rest2) []
        | [] => none
      else if c = '[' then
        match skipJsonWs rest with
        | c2 :: rest2 =>
          if c2 = ']' then some (.arr [], rest2)
          else parseElems fuel (c2 :: rest2) []
        | [] => none
      else if c = Char.ofNat 34 then
        match parseStringBody rest "" with
        | some (s, rest2) => some (.str s, rest2)
        | none => none
      else
        match c :: rest with
        | 't' :: 'r' :: 'u' :: 'e' :: rest2 => some (.bool true, rest2)
        | 'f' :: 'a' :: 'l' :: 's' :: 'e' :: rest2 => some (.bool false, rest2)
        | 'n' :: 'u' :: 'l' :: 'l' :: rest2 => some (.null, rest2)
        | cs2 => if c = '-' ∨ c.isDigit then parseNum cs2 else none

/-- Object members, positioned at the start of a key. -/
def parseMembers (fuel : Nat) (cs : List Char) (acc : List (String × Json)) :
    Option (Json × List Char) :=
  match fuel with
  | 0 => none
  | Nat.succ fuel =>
    match cs with
    | c :: rest =>
      if c = Char.ofNat 34 then
        match parseStringBody rest "" with
        | some (k, rest2) =>
          match skipJsonWs rest2 with
          | ':' :: rest3 =>
            match parseVal fuel rest3 with
            | some (v, rest4) =>
              match skipJsonWs rest4 with
              | ',' :: rest5 => parseMembers fuel (skipJsonWs rest5) (insertMember acc k v)
              | c5 :: rest5 =>
                if c5 = Char.ofNat 125 then some (.obj (insertMember acc k v), rest5)
                else none
              | [] => none
            | none => none
          | _ => none
        | none => none
      else none
    | [] => none

/-- Array elements, positioned at the start of an element. -/
def parseElems (fuel : Nat) (cs : List Char) (acc : List Json) :
    Option (Json × List Char) :=
  match fuel with
  | 0 => none
  | Nat.succ fuel =>
    match parseVal fuel cs with
    | some (v, rest) =>
      match skipJsonWs rest with
      | ',' :: rest2 => parseElems fuel rest2 (acc ++ [v])
      | ']' :: rest2 => some (.arr (acc ++ [v]), rest2)
      | _ => none
    | none => none

end

/-- Model of Python json.loads: parse one JSON value and require that
only whitespace follows it; any other outcome is the decode exception,
modelled as none. -/
def loads (s : String) : Option Json :=
  let cs := s.toList
  match parseVal (cs.length + 2) cs with
  | some (v, rest) => if skipJsonWs rest = [] then some v else none
  | none => none

/-- One result of a recv call on the socket: either a chunk of data
(the empty chunk means the peer closed the stream) or a raised OS
error carrying its message. -/
inductive RecvEvent where
  | chunk (data : String) : RecvEvent
  | fail (msg : String) : RecvEvent
deriving DecidableEq

/-- Oracle describing a connected socket's behaviour: whether sendall
raises (and with what message), the successive recv results, and
whether close raises. -/
structure Sock where
  sendFail : Option String
  recvEvents : List RecvEvent
  closeFail : Option String
deriving DecidableEq

/-- State of a ReClassClient: the optional socket handle self.sock. -/
structure ClientState where
  sock : Option Sock
deriving DecidableEq

/-- Model of sock.close(): raises exactly when the oracle says so. -/
def closeSock (sk : Sock) : Except String Unit :=
  match sk.closeFail with
  | some msg => Except.error msg
  | none => Except.ok ()

/-- ReClassClient.connect: builds a socket and connects to the endpoint.
The environment oracle decides the outcome: some sk means the TCP
connect succeeds and hands over that socket, none means it raises.  The
except branch of the source sets self.sock back to None and returns
False; the try branch returns True. -/
def connect (env : Option Sock) (_s : ClientState) : ClientState × Bool :=
  match env with
  | some sk => (⟨some sk⟩, true)
  | none => (⟨none⟩, false)

/-- ReClassClient.disconnect: if a socket is present, close it (any
close-time exception is swallowed by the bare except) and set self.sock
to None; otherwise do nothing. -/
def disconnect (s : ClientState) : ClientState :=
  match s.sock with
  | none => s
  | some sk =>
    match closeSock sk with
    | Except.ok _ => ⟨none⟩
    | Except.error _ => ⟨none⟩

/-- The read loop of send_command: recv repeatedly, appending each chunk
to the response buffer; stop with the buffer when a recv returns the
empty chunk (peer closed) or the buffer contains a newline after an
append; a recv that raises propagates its error.  An exhausted oracle
models a recv that blocks forever, returned as none. -/
def readLoop : List RecvEvent → String → Option (Except String String)
  | [], _ => none
  | RecvEvent.fail msg :: _, _ => some (Except.error msg)
  | RecvEvent.chunk c :: rest, buf =>
    if c = "" then some (Except.ok buf)
    else
      let buf2 := buf ++ c
      if buf2.toList.contains (Char.ofNat 10) then some (Except.ok buf2)
      else readLoop rest buf2

/-- The failure dictionary built by send_command:
a mapping with success false and the given error message. -/
def errorDict (msg : String) : Json :=
  Json.obj [("success", Json.bool false), ("error", Json.str msg)]

/-- Error message carried by the connect-failure return of
send_command, verbatim from the source. -/
def connectFailMsg : String := "Failed to connect to ReClass.NET plugin"

/-- Message text of the json.JSONDecodeError raised on unparseable
response bytes.  The exact wording comes from the Python standard
library and is opaque to this model; only its presence matters. -/
def jsonDecodeErrMsg (s : String) : String :=
  "JSON decode error on: " ++ s

/-- The part of send_command that runs with a connected socket sk:
build the request mapping, serialize it with a trailing newline, write
it in full, run the read loop, strip and parse the response.  Returns
the final client state, the list of payloads written to the transport,
and the returned dictionary; an exception anywhere in the try block
leads to self.disconnect() and the failure dictionary.  none models a
recv blocking forever. -/
def sendOn (sk : Sock) (command : String) (args : Option (List (String × Json))) :
    Option (ClientState × List String × Json) :=
  let request := Json.obj [("command", Json.str command), ("args", Json.obj (args.getD []))]
  let wire := dumps request ++ "\n"
  match sk.sendFail with
  | some msg => some (disconnect ⟨some sk⟩, [], errorDict msg)
  | none =>
    match readLoop sk.recvEvents "" with
    | none => none
    | some (Except.error msg) => some (disconnect ⟨some sk⟩, [wire], errorDict msg)
    | some (Except.ok resp) =>
      match loads (pyStrip resp) with
      | some v => some (⟨some sk⟩, [wire], v)
      | none => some (disconnect ⟨some sk⟩, [wire], errorDict (jsonDecodeErrMsg (pyStrip resp)))

/-- ReClassClient.send_command: if self.sock is None, attempt connect(),
returning the connect-failure dictionary if it fails; then perform the
exchange on the socket.  The `args or empty-dict` default of the source
is the getD inside sendOn. -/
def send_command (env : Option Sock) (s : ClientState) (command : String)
    (args : Option (List (String × Json))) :
    Option (ClientState × List String × Json) :=
  match s.sock with
  | some sk => sendOn sk command args
  | none =>
    match connect env s with
    | (s1, true) =>
      match s1.sock with
      | some sk => sendOn sk command args
      | none => none
    | (s1, false) => some (s1, [], errorDict connectFailMsg)

/-- A value supplied by the MCP caller in the arguments dictionary of a
tool invocation; the declared schemas use only strings and integers. -/
inductive PyVal where
  | str (s : String) : PyVal
  | int (n : Int) : PyVal
deriving DecidableEq

/-- The JSON value a PyVal becomes when placed in an args dictionary
that is then serialized. -/
def pvToJson : PyVal → Json
  | .str s => Json.str s
  | .int n => Json.num n

/-- Model of Python str() on an argument value: a string is itself, an
integer its decimal form. -/
def pyStrPV : PyVal → String
  | .str s => s
  | .int n => toString n

/-- Lookup of a key in the caller-supplied arguments dictionary;
none models the KeyError path. -/
def pyGet (arguments : List (String × PyVal)) (k : String) : Option PyVal :=
  (arguments.find? (fun p => p.1 = k)).map (fun p => p.2)

/-- Lookup in a decoded JSON object, as dict get: the first binding of
the key (bindings produced by loads are unique). -/
def dictGet (fields : List (String × Json)) (k : String) : Option Json :=
  (fields.find? (fun p => p.1 = k)).map (fun p => p.2)

/-- Python truthiness of result.get("success") on a decoded JSON value:
a missing key or None or False or zero or an empty string or an empty
container is falsy, everything else truthy. -/
def truthy : Option Json → Bool
  | none => false
  | some Json.null => false
  | some (Json.bool b) => b
  | some (Json.num n) => decide (n ≠ 0)
  | some (Json.str s) => decide (s ≠ "")
  | some (Json.arr []) => false
  | some (Json.arr (_ :: _)) => true
  | some (Json.obj []) => false
  | some (Json.obj (_ :: _)) => true

/-- Escape of one character inside a Python single-quoted string repr:
backslash and the quote get a backslash, the common control characters
their short escapes, other control characters a hex escape. -/
def pyReprChar (q : Char) (c : Char) : String :=
  if c = Char.ofNat 92 then "\\\\"
  else if c = q then String.mk [Char.ofNat 92, q]
  else if c = Char.ofNat 10 then "\\n"
  else if c = Char.ofNat 13 then "\\r"
  else if c = Char.ofNat 9 then "\\t"
  else if c.toNat < 32 ∨ c.toNat = 127 then
    "\\x" ++ String.mk [hexDigitChar (c.toNat / 16 % 16), hexDigitChar (c.toNat % 16)]
  else String.singleton c

/-- Model of Python repr() of a string: single quotes preferred, double
quotes when the string holds a single quote but no double quote. -/
def pyReprString (s : String) : String :=
  let q : Char :=
    if s.toList.contains (Char.ofNat 39) ∧ ¬ s.toList.contains (Char.ofNat 34)
    then Char.ofNat 34 else Char.ofNat 39
  String.singleton q ++ String.join (s.toList.map (pyReprChar q)) ++ String.singleton q

mutual

/-- Model of Python repr() on a value decoded from JSON: None, True,
False, decimal integers, quoted strings, bracketed lists and braced
dicts with comma-space separators. -/
def pyRepr : Json → String
  | .null => "None"
  | .bool true => "True"
  | .bool false => "False"
  | .num n => toString n
  | .str s => pyReprString s
  | .arr elems => "[" ++ pyReprElems elems ++ "]"
  | .obj fields => "\x7b" ++ pyReprFields fields ++ "\x7d"

/-- List items of a Python repr. -/
def pyReprElems : List Json → String
  | [] => ""
  | [x] => pyRepr x
  | x :: y :: rest => pyRepr x ++ ", " ++ pyReprElems (y :: rest)

/-- Dict items of a Python repr. -/
def pyReprFields : List (String × Json) → String
  | [] => ""
  | [(k, v)] => pyReprString k ++ ": " ++ pyRepr v
  | (k, v) :: m :: rest => pyReprString k ++ ": " ++ pyRepr v ++ ", " ++ pyReprFields (m :: rest)

end

/-- Model of Python str() on a value decoded from JSON, as interpolated
by an f-string: a string is taken verbatim, everything else rendered by
repr. -/
def pyStrOfJson : Json → String
  | .str s => s
  | .null => "None"
  | .bool true => "True"
  | .bool false => "False"
  | .num n => toString n
  | .arr elems => pyRepr (.arr elems)
  | .obj fields => pyRepr (.obj fields)

/-- Indentation prefix at a nesting level of json.dumps with indent=2. -/
def indentStr (lvl : Nat) : String :=
  String.mk (List.replicate (2 * lvl) ' ')

mutual

/-- Model of Python json.dumps with indent=2, used by call_tool to
pretty-print relay responses: containers with at least one item place
each item on its own line, indented two spaces per level; empty
containers print on one line. -/
def dumpsInd : Nat → Json → String
  | _, .null => "null"
  | _, .bool true => "true"
  | _, .bool false => "false"
  | _, .num n => toString n
  | _, .str s => quoteString s
  | _, .arr [] => "[]"
  | lvl, .arr (x :: rest) => "[\n" ++ dumpsIndElems (lvl + 1) (x :: rest) ++ "\n" ++ indentStr lvl ++ "]"
  | _, .obj [] => "\x7b\x7d"
  | lvl, .obj (f :: rest) => "\x7b\n" ++ dumpsIndFields (lvl + 1) (f :: rest) ++ "\n" ++ indentStr lvl ++ "\x7d"

/-- Indented array elements, one per line, comma-separated. -/
def dumpsIndElems : Nat → List Json → String
  | _, [] => ""
  | lvl, [x] => indentStr lvl ++ dumpsInd lvl x
  | lvl, x :: y :: rest => indentStr lvl ++ dumpsInd lvl x ++ ",\n" ++ dumpsIndElems lvl (y :: rest)

/-- Indented object members, one per line, comma-separated. -/
def dumpsIndFields : Nat → List (String × Json) → String
  | _, [] => ""
  | lvl, [(k, v)] => indentStr lvl ++ quoteString k ++ ": " ++ dumpsInd lvl v
  | lvl, (k, v) :: m :: rest =>
    indentStr lvl ++ quoteString k ++ ": " ++ dumpsInd lvl v ++ ",\n" ++ dumpsIndFields lvl (m :: rest)

end

/-- One property of a tool's input schema: parameter name, declared
primitive type, and description. -/
structure ParamDecl where
  name : String
  type : String
  description : String
deriving DecidableEq

/-- A tool descriptor as declared by list_tools: name, description, and
the input schema's properties and required list. -/
structure Tool where
  name : String
  description : String
  properties : List ParamDecl
  required : List String
deriving DecidableEq

/-- The static tool catalogue returned by list_tools. -/
def list_tools : List Tool := [
  ⟨"IsConnected", "Check if ReClass.NET plugin is available and connected", [], []⟩,
  ⟨"GetStatus", "Get the current status of ReClass.NET, including attached process information", [], []⟩,
  ⟨"GetProcessInfo", "Get detailed information about the currently attached process", [], []⟩,
  ⟨"ReadMemory", "Read memory from the attached process",
    [⟨"address", "string", "Memory address in hex (e.g., '0x7FF12345') or as module+offset (e.g., 'game.exe+0x1234')"⟩,
     ⟨"size", "integer", "Number of bytes to read (max 65536)"⟩],
    ["address", "size"]⟩,
  ⟨"WriteMemory", "Write memory to the attached process",
    [⟨"address", "string", "Memory address in hex (e.g., '0x7FF12345')"⟩,
     ⟨"data", "string", "Hex string of bytes to write (e.g., '90909090')"⟩],
    ["address", "data"]⟩,
  ⟨"GetModules", "Get list of loaded modules in the attached process", [], []⟩,
  ⟨"GetSections", "Get list of memory sections in the attached process", [], []⟩,
  ⟨"GetClasses", "Get list of all classes/structures defined in the current ReClass.NET project", [], []⟩,
  ⟨"GetClass", "Get detailed information about a specific class including all its nodes/fields",
    [⟨"identifier", "string", "Class UUID or name"⟩], ["identifier"]⟩,
  ⟨"GetNodes", "Get all nodes/fields of a specific class",
    [⟨"class_id", "string", "Class UUID or name"⟩], ["class_id"]⟩,
  ⟨"ParseAddress", "Parse an address formula and return the calculated address",
    [⟨"formula", "string", "Address formula (e.g., '0x7FF12345', 'game.exe+0x1234')"⟩], ["formula"]⟩,
  ⟨"CreateClass", "Create a new class/structure in the ReClass.NET project",
    [⟨"name", "string", "Name for the new class"⟩,
     ⟨"address", "string", "Base address formula for the class (optional)"⟩],
    ["name"]⟩,
  ⟨"AddNode", "Add a new node/field to a class",
    [⟨"class_id", "string", "Class UUID or name"⟩,
     ⟨"type", "string", "Node type (e.g., 'int32', 'float', 'pointer', 'hex64', 'utf8text')"⟩,
     ⟨"name", "string", "Name for the new node (optional)"⟩],
    ["class_id", "type"]⟩,
  ⟨"RenameNode", "Rename a node/field in a class",
    [⟨"class_id", "string", "Class UUID or name"⟩,
     ⟨"node_index", "integer", "Index of the node in the class"⟩,
     ⟨"name", "string", "New name for the node"⟩],
    ["class_id", "node_index", "name"]⟩,
  ⟨"SetComment", "Set a comment on a node/field",
    [⟨"class_id", "string", "Class UUID or name"⟩,
     ⟨"node_index", "integer", "Index of the node in the class"⟩,
     ⟨"comment", "string", "Comment text"⟩],
    ["class_id", "node_index", "comment"]⟩,
  ⟨"ChangeNodeType", "Change the type of a node/field",
    [⟨"class_id", "string", "Class UUID or name"⟩,
     ⟨"node_index", "integer", "Index of the node in the class"⟩,
     ⟨"type", "string", "New node type (e.g., 'int32', 'float', 'pointer')"⟩],
    ["class_id", "node_index", "type"]⟩]

/-- The declared tool names, in declaration order. -/
def toolNames : List String := list_tools.map Tool.name

/-- Observable outcome of one call_tool invocation: the texts of the
returned TextContent items, the send_command invocations made (remote
command name with the args dictionary handed over), and the client
state afterwards. -/
structure ToolOutcome where
  texts : List String
  calls : List (String × List (String × Json))
  finalState : ClientState

/-- The shape shared by every plain relay branch of call_tool: one
send_command with a fixed remote command name, the response rendered
with json.dumps at indent 2. -/
def relayTool (env : Option Sock) (s : ClientState) (cmd : String)
    (args : Option (List (String × Json))) : Option ToolOutcome :=
  match send_command env s cmd args with
  | none => none
  | some (s2, _w, result) => some ⟨[dumpsInd 0 result], [(cmd, args.getD [])], s2⟩

/-- The call_tool dispatcher: string-keyed branch per tool name mapping
the caller-supplied arguments to one send_command invocation, rendering
the response; unknown names answer with a fixed text and no exchange.
none models the paths on which call_tool itself never returns a value:
a missing required argument (KeyError), a recv blocking forever, or the
IsConnected branch calling get on a non-dict response
(AttributeError). -/
def call_tool (env : Option Sock) (s : ClientState) (name : String)
    (arguments : List (String × PyVal)) : Option ToolOutcome :=
  if name = "IsConnected" then
    match send_command env s "ping" none with
    | none => none
    | some (s2, _w, result) =>
      match result with
      | Json.obj fields =>
        if truthy (dictGet fields "success") then
          some ⟨["Connected to ReClass.NET plugin"], [("ping", [])], s2⟩
        else
          match dictGet fields "error" with
          | some e => some ⟨["Not connected: " ++ pyStrOfJson e], [("ping", [])], s2⟩
          | none => some ⟨["Not connected: Unknown error"], [("ping", [])], s2⟩
      | _ => none
  else if name = "GetStatus" then relayTool env s "get_status" none
  else if name = "GetProcessInfo" then relayTool env s "get_process_info" none
  else if name = "ReadMemory" then
    match pyGet arguments "address", pyGet arguments "size" with
    | some addr, some size =>
      relayTool env s "read_memory"
        (some [("address", pvToJson addr), ("size", Json.str (pyStrPV size))])
    | _, _ => none
  else if name = "WriteMemory" then
    match pyGet arguments "address", pyGet arguments "data" with
    | some addr, some data =>
      relayTool env s "write_memory"
        (some [("address", pvToJson addr), ("data", pvToJson data)])
    | _, _ => none
  else if name = "GetModules" then relayTool env s "get_modules" none
  else if name = "GetSections" then relayTool env s "get_sections" none
  else if name = "GetClasses" then relayTool env s "get_classes" none
  else if name = "GetClass" then
    match pyGet arguments "identifier" with
    | some ident => relayTool env s "get_class" (some [("id", pvToJson ident)])
    | none => none
  else if name = "GetNodes" then
    match pyGet arguments "class_id" with
    | some cid => relayTool env s "get_nodes" (some [("class_id", pvToJson cid)])
    | none => none
  else if name = "ParseAddress" then
    match pyGet arguments "formula" with
    | some f => relayTool env s "parse_address" (some [("formula", pvToJson f)])
    | none => none
  else if name = "CreateClass" then
    match pyGet arguments "name" with
    | some nm =>
      let args0 := [("name", pvToJson nm)]
      let args1 :=
        match pyGet arguments "address" with
        | some a => args0 ++ [("address", pvToJson a)]
        | none => args0
      relayTool env s "create_class" (some args1)
    | none => none
  else if name = "AddNode" then
    match pyGet arguments "class_id", pyGet arguments "type" with
    | some cid, some ty =>
      let args0 := [("class_id", pvToJson cid), ("type", pvToJson ty)]
      let args1 :=
        match pyGet arguments "name" with
        | some nm => args0 ++ [("name", pvToJson nm)]
        | none => args0
      relayTool env s "add_node" (some args1)
    | _, _ => none
  else if name = "RenameNode" then
    match pyGet arguments "class_id", pyGet arguments "node_index", pyGet arguments "name" with
    | some cid, some idx, some nm =>
      relayTool env s "rename_node"
        (some [("class_id", pvToJson cid), ("node_index", pvToJson idx), ("name", pvToJson nm)])
    | _, _, _ => none
  else if name = "SetComment" then
    match pyGet arguments "class_id", pyGet arguments "node_index", pyGet arguments "comment" with
    | some cid, some idx, some cm =>
      relayTool env s "set_comment"
        (some [("class_id", pvToJson cid), ("node_index", pvToJson idx), ("comment", pvToJson cm)])
    | _, _, _ => none
  else if name = "ChangeNodeType" then
    match pyGet arguments "class_id", pyGet arguments "node_index", pyGet arguments "type" with
    | some cid, some idx, some ty =>
      relayTool env s "change_node_type"
        (some [("class_id", pvToJson cid), ("node_index", pvToJson idx), ("type", pvToJson ty)])
    | _, _, _ => none
  else some ⟨["Unknown tool: " ++ name], [], s⟩

/-- The exact payload a successful exchange hands to sendall: the JSON
serialization of the request object followed by one newline. -/
def requestLine (command : String) (args : Option (List (String × Json))) : String :=
  dumps (Json.obj [("command", Json.str command), ("args", Json.obj (args.getD []))]) ++ "\n"

/-- Disconnecting a state that holds a socket always ends with the
socket discarded, whether or not close raises. -/
theorem disconnect_some (sk : Sock) : disconnect ⟨some sk⟩ = ⟨none⟩ := by
  cases h : sk.closeFail <;> simp [disconnect, closeSock, h]

/-- Every plain relay branch records exactly one send_command call,
with the command name and args it was given. -/
theorem relayTool_calls (env : Option Sock) (s : ClientState) (cmd : String)
    (args : Option (List (String × Json))) (out : ToolOutcome)
    (h : relayTool env s cmd args = some out) : out.calls = [(cmd, args.getD [])] := by
  unfold relayTool at h
  cases hsc : send_command env s cmd args with
  | none => rw [hsc] at h; cases h
  | some trip =>
    obtain ⟨s2, w, result⟩ := trip
    rw [hsc] at h
    cases h
    rfl

/-- C1: when an exception occurs during the write, the read, or the
JSON parse of an exchange, the relay discards its connection (the
state's socket becomes absent) and the call returns the failure
dictionary carrying the exception's message; and a subsequent
send_command on the now-empty state goes through connect() again:
with no connection available it returns the connect-failure dictionary,
with one available it performs a fresh exchange on it. -/
theorem send_error_discards_connection (sk : Sock) (command : String)
    (args : Option (List (String × Json))) :
    (∀ msg, sk.sendFail = some msg →
      sendOn sk command args = some (⟨none⟩, [], errorDict msg)) ∧
    (∀ msg, sk.sendFail = none → readLoop sk.recvEvents "" = some (Except.error msg) →
      sendOn sk command args = some (⟨none⟩, [requestLine command args], errorDict msg)) ∧
    (∀ resp, sk.sendFail = none → readLoop sk.recvEvents "" = some (Except.ok resp) →
      loads (pyStrip resp) = none →
      sendOn sk command args =
        some (⟨none⟩, [requestLine command args], errorDict (jsonDecodeErrMsg (pyStrip resp)))) ∧
    (∀ c a, send_command none ⟨none⟩ c a = some (⟨none⟩, [], errorDict connectFailMsg)) ∧
    (∀ sk2 c a, send_command (some sk2) (⟨none⟩ : ClientState) c a = sendOn sk2 c a) := by
  refine ⟨?_, ?_, ?_, ?_, ?_⟩
  · intro msg h
    simp [sendOn, h, disconnect_some]
  · intro msg h1 h2
    simp [sendOn, h1, h2, disconnect_some, requestLine]
  · intro resp h1 h2 h3
    simp [sendOn, h1, h2, h3, disconnect_some, requestLine]
  · intro c a; rfl
  · intro sk2 c a; rfl

/-- Witness for C1 at concrete sockets: a raising sendall, a raising
recv, and an unparseable response each yield the discarded state and
the failure dictionary. -/
theorem send_error_discards_connection_witness :
    sendOn ⟨some "broken pipe", [], none⟩ "ping" none =
      some (⟨none⟩, [], errorDict "broken pipe") ∧
    sendOn ⟨none, [RecvEvent.fail "connection reset"], none⟩ "ping" none =
      some (⟨none⟩, [requestLine "ping" none], errorDict "connection reset") ∧
    sendOn ⟨none, [RecvEvent.chunk "garbage", RecvEvent.chunk ""], none⟩ "ping" none =
      some (⟨none⟩, [requestLine "ping" none], errorDict (jsonDecodeErrMsg "garbage")) :=
  ⟨(send_error_discards_connection ⟨some "broken pipe", [], none⟩ "ping" none).1
      "broken pipe" rfl,
    (send_error_discards_connection ⟨none, [RecvEvent.fail "connection reset"], none⟩
      "ping" none).2.1 "connection reset" rfl rfl,
    (send_error_discards_connection ⟨none, [RecvEvent.chunk "garbage", RecvEvent.chunk ""], none⟩
      "ping" none).2.2.1 "garbage" rfl rfl rfl⟩

/-- C3 counterexample: with no connection and a failing connect(),
send_command does return a failure dictionary immediately and writes
nothing, but its error string is the verbatim source message, not
the string "connection failed" the claim asserts. -/
theorem connect_failure_message_cex :
    send_command none ⟨none⟩ "ping" none = some (⟨none⟩, [], errorDict connectFailMsg) ∧
    connectFailMsg ≠ "connection failed" :=
  ⟨rfl, by decide⟩

/-- C3 amended: when no connection exists and connect() fails,
send_command immediately returns the failure dictionary with the
message about failing to connect to the plugin, having written nothing
to any transport, and the state remains without a connection. -/
theorem connect_failure_return (s : ClientState) (command : String)
    (args : Option (List (String × Json))) (h : s.sock = none) :
    send_command none s command args = some (⟨none⟩, [], errorDict connectFailMsg) := by
  cases s
  subst h
  rfl

/-- Witness for C3 amended at the empty state. -/
theorem connect_failure_return_witness :
    (⟨none⟩ : ClientState).sock = none ∧
    send_command none ⟨none⟩ "get_status" none = some (⟨none⟩, [], errorDict connectFailMsg) :=
  ⟨rfl, connect_failure_return ⟨none⟩ "get_status" none rfl⟩

/-- C4: on a successful exchange the transport receives exactly one
write, whose bytes are the JSON encoding of the request object followed
by one newline; and whenever a connection is present, send_command is
exactly that exchange on it. -/
theorem success_exchange_writes_request_line (env : Option Sock) (s : ClientState)
    (sk : Sock) (command : String) (args : Option (List (String × Json))) :
    (∀ resp v, sk.sendFail = none → readLoop sk.recvEvents "" = some (Except.ok resp) →
      loads (pyStrip resp) = some v →
      sendOn sk command args = some (⟨some sk⟩, [requestLine command args], v)) ∧
    (s.sock = some sk → send_command env s command args = sendOn sk command args) := by
  constructor
  · intro resp v h1 h2 h3
    simp [sendOn, h1, h2, h3, requestLine]
  · intro h
    cases s
    subst h
    rfl

/-- Witness for C4: a one-chunk newline-terminated response yields the
decoded value with precisely the serialized request line written. -/
theorem success_exchange_writes_request_line_witness :
    sendOn ⟨none, [RecvEvent.chunk "\x7b\"success\": true\x7d\n"], none⟩ "ping" none =
      some (⟨some ⟨none, [RecvEvent.chunk "\x7b\"success\": true\x7d\n"], none⟩⟩,
        [requestLine "ping" none], Json.obj [("success", Json.bool true)]) ∧
    requestLine "ping" none = "\x7b\"command\": \"ping\", \"args\": \x7b\x7d\x7d\n" :=
  ⟨(success_exchange_writes_request_line none ⟨none⟩
      ⟨none, [RecvEvent.chunk "\x7b\"success\": true\x7d\n"], none⟩ "ping" none).1
      "\x7b\"success\": true\x7d\n" (Json.obj [("success", Json.bool true)]) rfl rfl rfl,
    rfl⟩

/-- C5: the read loop stops exactly when the accumulated buffer holds a
newline after an append or a recv returns the empty chunk, accumulating
by concatenation otherwise; a response with no newline before the peer
closes is still accepted, and if the accumulated bytes do not parse as
JSON the exchange reports the failure dictionary as a return value. -/
theorem read_loop_framing (c : String) (rest : List RecvEvent) (buf : String)
    (sk : Sock) (command : String) (args : Option (List (String × Json))) :
    (readLoop (RecvEvent.chunk "" :: rest) buf = some (Except.ok buf)) ∧
    (c ≠ "" → ((buf ++ c).toList.contains (Char.ofNat 10)) = true →
      readLoop (RecvEvent.chunk c :: rest) buf = some (Except.ok (buf ++ c))) ∧
    (c ≠ "" → ((buf ++ c).toList.contains (Char.ofNat 10)) = false →
      readLoop (RecvEvent.chunk c :: rest) buf = readLoop rest (buf ++ c)) ∧
    (∀ resp, sk.sendFail = none → readLoop sk.recvEvents "" = some (Except.ok resp) →
      loads (pyStrip resp) = none →
      sendOn sk command args =
        some (⟨none⟩, [requestLine command args], errorDict (jsonDecodeErrMsg (pyStrip resp)))) := by
  refine ⟨?_, ?_, ?_, ?_⟩
  · simp [readLoop]
  · intro h1 h2
    simp only [readLoop, if_neg h1, h2]
    rfl
  · intro h1 h2
    simp only [readLoop, if_neg h1, h2]
    rfl
  · intro resp h1 h2 h3
    simp [sendOn, h1, h2, h3, disconnect_some, requestLine]

/-- Witness for C5: a two-chunk response without any newline, ended by
the peer closing, is accumulated, accepted, and its parse failure is
returned as the failure dictionary. -/
theorem read_loop_framing_witness :
    readLoop [RecvEvent.chunk "", RecvEvent.chunk "later"] "early" = some (Except.ok "early") ∧
    ("ab\ncd" : String) ≠ "" ∧
    readLoop [RecvEvent.chunk "ab\ncd"] "" = some (Except.ok "ab\ncd") ∧
    readLoop [RecvEvent.chunk "gar", RecvEvent.chunk "bage", RecvEvent.chunk ""] "" =
      readLoop [RecvEvent.chunk "bage", RecvEvent.chunk ""] "gar" ∧
    sendOn ⟨none, [RecvEvent.chunk "gar", RecvEvent.chunk "bage", RecvEvent.chunk ""], none⟩
        "ping" none =
      some (⟨none⟩, [requestLine "ping" none], errorDict (jsonDecodeErrMsg "garbage")) := by
  refine ⟨(read_loop_framing "x" [RecvEvent.chunk "later"] "early"
      ⟨none, [], none⟩ "ping" none).1, by decide, ?_, ?_, ?_⟩
  · exact (read_loop_framing "ab\ncd" [] "" ⟨none, [], none⟩ "ping" none).2.1
      (by decide) rfl
  · exact (read_loop_framing "gar" [RecvEvent.chunk "bage", RecvEvent.chunk ""] ""
      ⟨none, [], none⟩ "ping" none).2.2.1 (by decide) rfl
  · exact (read_loop_framing "x" [] ""
      ⟨none, [RecvEvent.chunk "gar", RecvEvent.chunk "bage", RecvEvent.chunk ""], none⟩
      "ping" none).2.2.2 "garbage" rfl rfl rfl

/-- C2 counterexample: a RenameNode invocation places the integer
node_index in the args dictionary as a JSON number, not as a string, so
not every args value sent on the wire is a string. -/
theorem args_all_strings_cex :
    (call_tool none ⟨none⟩ "RenameNode"
        [("class_id", PyVal.str "Player"), ("node_index", PyVal.int 5),
          ("name", PyVal.str "health")]).map ToolOutcome.calls =
      some [("rename_node", [("class_id", Json.str "Player"), ("node_index", Json.num 5),
        ("name", Json.str "health")])] ∧
    Json.isStr (Json.num 5) = false :=
  ⟨rfl, rfl⟩

/-- C2 amended: string arguments pass through unchanged and ReadMemory
coerces its integer size to its decimal string form with str(), but the
node_index of RenameNode, SetComment and ChangeNodeType is placed in
args uncoerced, as a JSON number. -/
theorem integer_argument_coercion (env : Option Sock) (s : ClientState)
    (addr cid nm cm ty : String) (n i : Int) :
    (∀ out, call_tool env s "ReadMemory"
        [("address", PyVal.str addr), ("size", PyVal.int n)] = some out →
      out.calls = [("read_memory",
        [("address", Json.str addr), ("size", Json.str (toString n))])]) ∧
    (∀ out, call_tool env s "RenameNode"
        [("class_id", PyVal.str cid), ("node_index", PyVal.int i),
          ("name", PyVal.str nm)] = some out →
      out.calls = [("rename_node", [("class_id", Json.str cid),
        ("node_index", Json.num i), ("name", Json.str nm)])]) ∧
    (∀ out, call_tool env s "SetComment"
        [("class_id", PyVal.str cid), ("node_index", PyVal.int i),
          ("comment", PyVal.str cm)] = some out →
      out.calls = [("set_comment", [("class_id", Json.str cid),
        ("node_index", Json.num i), ("comment", Json.str cm)])]) ∧
    (∀ out, call_tool env s "ChangeNodeType"
        [("class_id", PyVal.str cid), ("node_index", PyVal.int i),
          ("type", PyVal.str ty)] = some out →
      out.calls = [("change_node_type", [("class_id", Json.str cid),
        ("node_index", Json.num i), ("type", Json.str ty)])]) := by
  refine ⟨?_, ?_, ?_, ?_⟩ <;> intro out h <;>
    exact relayTool_calls _ _ _ _ _ h

/-- Witness for C2 amended: a concrete ReadMemory call with size 16
records the coerced string "16" in its single send_command call. -/
theorem integer_argument_coercion_witness :
    call_tool none ⟨none⟩ "ReadMemory"
        [("address", PyVal.str "0x1000"), ("size", PyVal.int 16)] =
      some ⟨[dumpsInd 0 (errorDict connectFailMsg)],
        [("read_memory", [("address", Json.str "0x1000"), ("size", Json.str "16")])],
        ⟨none⟩⟩ ∧
    (ToolOutcome.mk [dumpsInd 0 (errorDict connectFailMsg)]
        [("read_memory", [("address", Json.str "0x1000"), ("size", Json.str "16")])]
        ⟨none⟩).calls =
      [("read_memory", [("address", Json.str "0x1000"), ("size", Json.str "16")])] :=
  ⟨rfl, (integer_argument_coercion none ⟨none⟩ "0x1000" "C" "n" "c" "t" 16 0).1 _ rfl⟩

/-- C6 counterexample: when the ping response carries the truthy but
non-Boolean success value 1, IsConnected renders the fixed success
string, although the claim requires the failure string for any response
whose success field is not true. -/
theorem isconnected_render_cex :
    (call_tool (some ⟨none, [RecvEvent.chunk "\x7b\"success\": 1\x7d\n"], none⟩)
        ⟨none⟩ "IsConnected" []).map ToolOutcome.texts =
      some ["Connected to ReClass.NET plugin"] ∧
    loads "\x7b\"success\": 1\x7d" = some (Json.obj [("success", Json.num 1)]) ∧
    ¬ (Json.num 1 = Json.bool true) ∧
    ("Connected to ReClass.NET plugin" : String) ≠ "Not connected: Unknown error" :=
  ⟨rfl, rfl, fun h => Json.noConfusion h, by decide⟩

/-- C6 amended: IsConnected renders the fixed success string exactly
when the success field of the decoded ping response is truthy, and
otherwise the fixed failure string embedding the error field rendered
with str(), with the placeholder when the error key is absent. -/
theorem isconnected_render (env : Option Sock) (s : ClientState)
    (s2 : ClientState) (w : List String) (fields : List (String × Json)) :
    (send_command env s "ping" none = some (s2, w, Json.obj fields) →
      truthy (dictGet fields "success") = true →
      call_tool env s "IsConnected" [] =
        some ⟨["Connected to ReClass.NET plugin"], [("ping", [])], s2⟩) ∧
    (send_command env s "ping" none = some (s2, w, Json.obj fields) →
      truthy (dictGet fields "success") = false → dictGet fields "error" = none →
      call_tool env s "IsConnected" [] =
        some ⟨["Not connected: Unknown error"], [("ping", [])], s2⟩) ∧
    (∀ e, send_command env s "ping" none = some (s2, w, Json.obj fields) →
      truthy (dictGet fields "success") = false → dictGet fields "error" = some e →
      call_tool env s "IsConnected" [] =
        some ⟨["Not connected: " ++ pyStrOfJson e], [("ping", [])], s2⟩) := by
  refine ⟨?_, ?_, ?_⟩
  · intro hp ht
    simp [call_tool, hp, ht]
  · intro hp ht he
    simp [call_tool, hp, ht, he]
  · intro e hp ht he
    simp [call_tool, hp, ht, he]

/-- Witness for C6 amended: concrete ping responses exercising the
success, the default-placeholder, and the embedded-error renderings. -/
theorem isconnected_render_witness :
    call_tool (some ⟨none, [RecvEvent.chunk "\x7b\"success\": true\x7d\n"], none⟩)
        ⟨none⟩ "IsConnected" [] =
      some ⟨["Connected to ReClass.NET plugin"], [("ping", [])],
        ⟨some ⟨none, [RecvEvent.chunk "\x7b\"success\": true\x7d\n"], none⟩⟩⟩ ∧
    call_tool (some ⟨none, [RecvEvent.chunk "\x7b\"success\": false\x7d\n"], none⟩)
        ⟨none⟩ "IsConnected" [] =
      some ⟨["Not connected: Unknown error"], [("ping", [])],
        ⟨some ⟨none, [RecvEvent.chunk "\x7b\"success\": false\x7d\n"], none⟩⟩⟩ ∧
    call_tool (some ⟨none,
        [RecvEvent.chunk "\x7b\"success\": false, \"error\": \"no process\"\x7d\n"], none⟩)
        ⟨none⟩ "IsConnected" [] =
      some ⟨["Not connected: no process"], [("ping", [])],
        ⟨some ⟨none,
          [RecvEvent.chunk "\x7b\"success\": false, \"error\": \"no process\"\x7d\n"], none⟩⟩⟩ :=
  ⟨(isconnected_render (some ⟨none, [RecvEvent.chunk "\x7b\"success\": true\x7d\n"], none⟩)
      ⟨none⟩ ⟨some ⟨none, [RecvEvent.chunk "\x7b\"success\": true\x7d\n"], none⟩⟩
      [requestLine "ping" none] [("success", Json.bool true)]).1 rfl rfl,
    (isconnected_render (some ⟨none, [RecvEvent.chunk "\x7b\"success\": false\x7d\n"], none⟩)
      ⟨none⟩ ⟨some ⟨none, [RecvEvent.chunk "\x7b\"success\": false\x7d\n"], none⟩⟩
      [requestLine "ping" none] [("success", Json.bool false)]).2.1 rfl rfl rfl,
    (isconnected_render (some ⟨none,
        [RecvEvent.chunk "\x7b\"success\": false, \"error\": \"no process\"\x7d\n"], none⟩)
      ⟨none⟩ ⟨some ⟨none,
        [RecvEvent.chunk "\x7b\"success\": false, \"error\": \"no process\"\x7d\n"], none⟩⟩
      [requestLine "ping" none]
      [("success", Json.bool false), ("error", Json.str "no process")]).2.2
      (Json.str "no process") rfl rfl rfl⟩

/-- C7: connect returns a Boolean (it is a total function into Bool, so
no exception escapes), it succeeds exactly when the environment can
provide a transport, on failure it leaves the connection absent, and on
success the provided socket is installed. -/
theorem connect_contract (env : Option Sock) (s : ClientState) :
    (connect env s).2 = env.isSome ∧
    ((connect env s).2 = false → (connect env s).1.sock = none) ∧
    ((connect env s).2 = true → (connect env s).1.sock = env) := by
  cases env <;> simp [connect]

/-- Witness for C7: a failing connect at a concrete state leaves the
socket absent and reports false. -/
theorem connect_contract_witness :
    (connect none ⟨some ⟨none, [], none⟩⟩).2 = false ∧
    (connect none ⟨some ⟨none, [], none⟩⟩).1.sock = none :=
  ⟨(connect_contract none ⟨some ⟨none, [], none⟩⟩).1,
    (connect_contract none ⟨some ⟨none, [], none⟩⟩).2.1 rfl⟩

/-- C8: a CreateClass invocation whose arguments hold a name but no
address sends exactly the one-key args dictionary, and one whose
arguments also hold an address sends both keys. -/
theorem createclass_optional_address (env : Option Sock) (s : ClientState)
    (arguments : List (String × PyVal)) (nv av : PyVal) :
    (pyGet arguments "name" = some nv → pyGet arguments "address" = none →
      ∀ out, call_tool env s "CreateClass" arguments = some out →
        out.calls = [("create_class", [("name", pvToJson nv)])]) ∧
    (pyGet arguments "name" = some nv → pyGet arguments "address" = some av →
      ∀ out, call_tool env s "CreateClass" arguments = some out →
        out.calls = [("create_class", [("name", pvToJson nv), ("address", pvToJson av)])]) := by
  constructor
  · intro hn ha out h
    simp only [call_tool, hn, ha] at h
    exact relayTool_calls _ _ _ _ _ h
  · intro hn ha out h
    simp only [call_tool, hn, ha] at h
    exact relayTool_calls _ _ _ _ _ h

/-- Witness for C8: concrete CreateClass calls with and without the
optional address argument. -/
theorem createclass_optional_address_witness :
    pyGet [("name", PyVal.str "Player")] "name" = some (PyVal.str "Player") ∧
    pyGet [("name", PyVal.str "Player")] "address" = none ∧
    (ToolOutcome.mk [dumpsInd 0 (errorDict connectFailMsg)]
        [("create_class", [("name", Json.str "Player")])] ⟨none⟩).calls =
      [("create_class", [("name", Json.str "Player")])] ∧
    (ToolOutcome.mk [dumpsInd 0 (errorDict connectFailMsg)]
        [("create_class", [("name", Json.str "Player"), ("address", Json.str "0x1000")])]
        ⟨none⟩).calls =
      [("create_class", [("name", Json.str "Player"), ("address", Json.str "0x1000")])] :=
  ⟨rfl, rfl,
    (createclass_optional_address none ⟨none⟩ [("name", PyVal.str "Player")]
      (PyVal.str "Player") (PyVal.str "0x1000")).1 rfl rfl _ rfl,
    (createclass_optional_address none ⟨none⟩
      [("name", PyVal.str "Player"), ("address", PyVal.str "0x1000")]
      (PyVal.str "Player") (PyVal.str "0x1000")).2 rfl rfl _ rfl⟩

/-- C9: disconnect is total (it never raises: a close-time error is
swallowed) and idempotent: from any starting state, one call leaves the
connection absent and a second call keeps it absent and changes
nothing. -/
theorem disconnect_idempotent (s : ClientState) :
    (disconnect s).sock = none ∧
    (disconnect (disconnect s)).sock = none ∧
    disconnect (disconnect s) = disconnect s := by
  have h1 : (disconnect s).sock = none := by
    cases s with
    | mk sock =>
      cases sock with
      | none => rfl
      | some sk => simp [disconnect_some]
  have h2 : disconnect s = ⟨none⟩ := by
    cases hd : disconnect s
    rw [hd] at h1
    simp at h1
    rw [h1]
  exact ⟨h1, by rw [h2]; rfl, by rw [h2]; rfl⟩

/-- C10: call_tool on a name outside the sixteen declared tool names
returns the single unknown-tool text, invokes no send_command, and
leaves the client state untouched. -/
theorem unknown_tool_answered_locally (env : Option Sock) (s : ClientState)
    (name : String) (arguments : List (String × PyVal)) (h : name ∉ toolNames) :
    call_tool env s name arguments = some ⟨["Unknown tool: " ++ name], [], s⟩ ∧
    toolNames.length = 16 := by
  simp only [toolNames, list_tools, List.map_cons, List.map_nil, List.mem_cons,
    List.mem_singleton, not_or] at h
  obtain ⟨h1, h2, h3, h4, h5, h6, h7, h8, h9, h10, h11, h12, h13, h14, h15, h16, -⟩ := h
  refine ⟨?_, rfl⟩
  simp only [call_tool, if_neg h1, if_neg h2, if_neg h3, if_neg h4, if_neg h5, if_neg h6,
    if_neg h7, if_neg h8, if_neg h9, if_neg h10, if_neg h11, if_neg h12, if_neg h13,
    if_neg h14, if_neg h15, if_neg h16]

/-- Witness for C10: the undeclared name Frobnicate is answered locally
with no exchange and the state unchanged. -/
theorem unknown_tool_answered_locally_witness :
    ("Frobnicate" ∉ toolNames) ∧
    call_tool none ⟨none⟩ "Frobnicate" [] =
      some ⟨["Unknown tool: Frobnicate"], [], ⟨none⟩⟩ :=
  ⟨by decide,
    (unknown_tool_answered_locally none ⟨none⟩ "Frobnicate" [] (by decide)).1⟩

end ReClassMCP
